import Mathlib

/-!
# PRD Builder — verification of the conversation state machine

Shallow embedding of the core of the `prd-builder` web client: the
conversation state machine (`useChat` hook), the error taxonomy
(`src/lib/errors.ts`), the prompt builders (`src/lib/prompts.ts`), the
persistence adapter (`src/lib/storage.ts`), the API route's response
validation (`src/app/api/chat/route.ts`) and the markdown export
(`src/lib/markdown.ts`).

React `useState` setters are rendered as sequential record updates on an
explicit state value.  Callbacks created by `useCallback` close over the
state of the render in which they were created; where the source relies on
this (e.g. `retry` reading `error` after calling `setError(null)`), the
embedding reads the pre-operation state, which is exactly what the stale
closure sees.  Remote I/O is made explicit: each operation that performs a
network call takes the outcome of that call as a parameter and also reports
the request it issued, so that theorems can speak about what was sent.
-/

namespace PrdBuilder

/-- Application state machine states (`AppState` in `src/lib/types.ts`). -/
inductive AppState where
  | idle
  | loading
  | clarifying
  | complete
  | error
deriving DecidableEq, Repr

/-- Message author role (`MessageRole` in `src/lib/types.ts`). -/
inductive MessageRole where
  | user
  | assistant
deriving DecidableEq, Repr

/-- One conversation turn (`Message` in `src/lib/types.ts`).  Timestamps are
JavaScript epoch-millisecond numbers, embedded as `Int`. -/
structure Message where
  role : MessageRole
  content : String
  timestamp : Int
deriving DecidableEq, Repr

/-- Core feature entry of a PRD (`Feature` in `src/lib/types.ts`). -/
structure Feature where
  name : String
  description : String
deriving DecidableEq, Repr

/-- Requirement entry of a PRD (`Requirement` in `src/lib/types.ts`). -/
structure Requirement where
  id : String
  description : String
deriving DecidableEq, Repr

/-- User story of a PRD (`UserStory` in `src/lib/types.ts`). -/
structure UserStory where
  story : String
  acceptanceCriteria : List String
deriving DecidableEq, Repr

/-- Roadmap phase of a PRD (`Phase` in `src/lib/types.ts`). -/
structure Phase where
  phase : String
  tasks : List String
deriving DecidableEq, Repr

/-- Assumption entry of a PRD (`Assumption` in `src/lib/types.ts`). -/
structure Assumption where
  topic : String
  assumed : String
  validateBy : String
deriving DecidableEq, Repr

/-- The generated requirements document (`PRDDocument` in
`src/lib/types.ts`).  The `assumptions` field is optional in the source
(`assumptions?: Assumption[]`), embedded as `Option`: `none` means the field
is absent. -/
structure PRDDocument where
  title : String
  summary : String
  problemStatement : String
  targetUsers : String
  coreFeatures : List Feature
  functionalRequirements : List Requirement
  nonFunctionalRequirements : List Requirement
  userStories : List UserStory
  outOfScope : List String
  technicalConsiderations : List String
  implementationRoadmap : List Phase
  assumptions : Option (List Assumption)
deriving DecidableEq, Repr

/-- Validated AI response, the discriminated union `AIResponse` in
`src/lib/types.ts`. -/
inductive AIResponse where
  | clarification (questions : List String)
  | prd (prd : PRDDocument)
deriving DecidableEq, Repr

/-- Error taxonomy (`ErrorType` in `src/lib/types.ts`). -/
inductive ErrorType where
  | timeout
  | rate_limit
  | server_error
  | network
  | parse_error
  | unknown
deriving DecidableEq, Repr

/-- User-facing error descriptor (`AppError` in `src/lib/types.ts`). -/
structure AppError where
  type : ErrorType
  message : String
  retryable : Bool
deriving DecidableEq, Repr

/-- Modelled from the spec: `src/lib/constants.ts` is not among the sources
(only its import sites are); the spec fixes the clarification cap at 5
("compared against a fixed cap (5)"). -/
def MAX_CLARIFICATION_ROUNDS : Nat := 5

/-! ## Error taxonomy (`src/lib/errors.ts`) -/

/-- Maps an HTTP status to an `AppError` (`getErrorFromStatus` in
`src/lib/errors.ts`).  The source `switch` has cases `429`,
`500 | 502 | 503 | 504`, and a default. -/
def getErrorFromStatus (status : Nat) : AppError :=
  if status = 429 then
    { type := .rate_limit
      message := "Too many requests. Wait a moment and try again."
      retryable := true }
  else if status = 500 ∨ status = 502 ∨ status = 503 ∨ status = 504 then
    { type := .server_error
      message := "The service had an issue. Please try again shortly."
      retryable := true }
  else
    { type := .unknown
      message := "Something went wrong. Please try again."
      retryable := true }

/-- Timeout descriptor (`getTimeoutError` in `src/lib/errors.ts`). -/
def getTimeoutError : AppError :=
  { type := .timeout
    message := "Request timed out. Please try again."
    retryable := true }

/-- Network-failure descriptor (`getNetworkError` in `src/lib/errors.ts`). -/
def getNetworkError : AppError :=
  { type := .network
    message := "Unable to connect. Check your internet and try again."
    retryable := true }

/-- Malformed-response descriptor (`getParseError` in `src/lib/errors.ts`). -/
def getParseError : AppError :=
  { type := .parse_error
    message := "Unable to process response. Please try again."
    retryable := true }

/-- Override message after repeated failures (`getConsecutiveFailureMessage`
in `src/lib/errors.ts`): `some` text when `failures >= 3`, else `none`
(the source returns `null`). -/
def getConsecutiveFailureMessage (failures : Nat) : Option String :=
  if 3 ≤ failures then some "Having trouble connecting. Try again later."
  else none

/-! ## Prompt builders (`src/lib/prompts.ts`) -/

/-- Frames outbound user text (`buildUserMessage` in `src/lib/prompts.ts`). -/
def buildUserMessage (content : String) (isInitialIdea : Bool) : String :=
  if isInitialIdea then
    "User\u0027s product idea:\n\n" ++ content
  else
    "User\u0027s response to clarification:\n\n" ++ content

/-- Cap-warning system modifier (`buildClarificationCapMessage` in
`src/lib/prompts.ts`). -/
def buildClarificationCapMessage (round : Nat) : String :=
  "\n\n[System: This is clarification round " ++ toString round ++
    " of 5. If you need more information after this round, generate the PRD with your best assumptions and include them in the assumptions field.]"

/-- Force-generation system modifier (`buildForceGenerateMessage` in
`src/lib/prompts.ts`). -/
def buildForceGenerateMessage : String :=
  "\n\n[System: Maximum clarification rounds reached. Generate the PRD now with your best understanding. Include any assumptions in the assumptions field.]"

/-- One-shot JSON-repair instruction (`buildJsonRetryMessage` in
`src/lib/prompts.ts`). -/
def buildJsonRetryMessage : String :=
  "Your previous response was not valid JSON. Please respond with valid JSON only, following the exact schema provided."

/-- Truthiness test `!content.trim()` used by the `sendMessage` guard: the
JavaScript-trimmed text is empty exactly when every character of the string
is whitespace.  (`String.trim` itself is defined by well-founded recursion
and does not reduce inside the kernel, so the guard is embedded through
this equivalent executable form.) -/
def trimsToEmpty (s : String) : Bool :=
  s.data.all Char.isWhitespace

/-! ## Remote call adapter (`callApi` in `src/hooks/useChat.ts`) -/

/-- Typed failure thrown by `callApi`: the discriminated objects
`\x7b type: 'timeout' \x7d`, `\x7b type: 'network' \x7d`,
`\x7b type: 'parse_error' \x7d`, `\x7b type: 'http_error', status \x7d`. -/
inductive CallError where
  | timeout
  | network
  | parse_error
  | http_error (status : Nat)
deriving DecidableEq, Repr

/-- Outcome of the underlying `fetch` to `/api/chat`, as observed by
`callApi`: a 2xx reply with a decoded body, a non-2xx status, an abort of
the 45-second timeout, or a transport-level failure (`TypeError`). -/
inductive RemoteOutcome where
  | success (r : AIResponse)
  | httpStatus (status : Nat)
  | timeout
  | network
deriving DecidableEq, Repr

/-- Translation performed inside `callApi`: status 422 is recognised as a
JSON-parse failure before the generic `http_error`, an abort becomes
`timeout`, a `TypeError` becomes `network`. -/
def callApiClassify : RemoteOutcome → Except CallError AIResponse
  | .success r => .ok r
  | .httpStatus status =>
      if status = 422 then .error .parse_error
      else .error (.http_error status)
  | .timeout => .error .timeout
  | .network => .error .network

/-- Mapping from a thrown `CallError` to an `AppError`, as in the `catch`
block of `sendMessage`.  The source guards the http case with
`errorObj.status` (truthiness), so `http_error` with status 0 falls through
to the default `getErrorFromStatus(500)` branch. -/
def classifyCallError : CallError → AppError
  | .timeout => getTimeoutError
  | .network => getNetworkError
  | .parse_error => getParseError
  | .http_error status =>
      if status ≠ 0 then getErrorFromStatus status
      else getErrorFromStatus 500

/-! ## Conversation state machine (`useChat` in `src/hooks/useChat.ts`) -/

/-- The hook's state: the nine `useState` cells of `useChat` (omitting the
hydration latch, which only sequences browser I/O). -/
structure ChatState where
  state : AppState
  messages : List Message
  prd : Option PRDDocument
  error : Option AppError
  clarificationRound : Nat
  originalIdea : String
  consecutiveFailures : Nat
  lastUserMessage : String
  jsonRetryAttempted : Bool
deriving DecidableEq, Repr

/-- Initial values of the nine `useState` cells. -/
def initialChatState : ChatState :=
  { state := .idle
    messages := []
    prd := none
    error := none
    clarificationRound := 0
    originalIdea := ""
    consecutiveFailures := 0
    lastUserMessage := ""
    jsonRetryAttempted := false }

/-- Request issued to `/api/chat`: the turn history and the optional
system modifier sent in the POST body. -/
structure ApiRequest where
  messages : List Message
  systemModifier : Option String
deriving DecidableEq, Repr

/-- Result of a mutating operation: the new hook state together with the
request it issued to the remote adapter, if any. -/
structure OpResult where
  chat : ChatState
  request : Option ApiRequest
deriving DecidableEq, Repr

/-- Applies a validated response (`processResponse` in
`src/hooks/useChat.ts`): a clarification appends one assistant turn built
from `questions.join('\n\n')` and increments the round; a document is stored
verbatim with no assistant turn appended.  Both reset the consecutive
failure count and the JSON-retry flag. -/
def processResponse (st : ChatState) (response : AIResponse)
    (newMessages : List Message) (now : Int) : ChatState :=
  match response with
  | .clarification questions =>
      { st with
        messages := newMessages ++
          [{ role := .assistant
             content := String.intercalate "\n\n" questions
             timestamp := now }]
        state := .clarifying
        clarificationRound := st.clarificationRound + 1
        consecutiveFailures := 0
        jsonRetryAttempted := false }
  | .prd doc =>
      { st with
        prd := some doc
        state := .complete
        consecutiveFailures := 0
        jsonRetryAttempted := false }

/-- The system modifier computed by `sendMessage` from the next
clarification round. -/
def systemModifierFor (clarificationRound : Nat) : Option String :=
  let nextRound := clarificationRound + 1
  if MAX_CLARIFICATION_ROUNDS ≤ nextRound then
    some buildForceGenerateMessage
  else if MAX_CLARIFICATION_ROUNDS - 1 ≤ nextRound then
    some (buildClarificationCapMessage nextRound)
  else
    none

/-- The `sendMessage` operation of `src/hooks/useChat.ts`.  `now` stands for
`Date.now()`; `outcome` is the result of the remote call the operation
performs.  Guard: `if (!content.trim() || state === 'loading') return` —
a no-op issues no request and leaves the state untouched. -/
def sendMessage (st : ChatState) (content : String) (now : Int)
    (outcome : RemoteOutcome) : OpResult :=
  if trimsToEmpty content ∨ st.state = .loading then
    { chat := st, request := none }
  else
    let isInitialIdea := st.messages = []
    let userMessage : Message :=
      { role := .user
        content := buildUserMessage content isInitialIdea
        timestamp := now }
    let newMessages := st.messages ++ [userMessage]
    let systemModifier := systemModifierFor st.clarificationRound
    let st1 : ChatState :=
      { st with
        error := none
        state := .loading
        originalIdea := if isInitialIdea then content else st.originalIdea
        lastUserMessage := content
        messages := newMessages }
    match callApiClassify outcome with
    | .ok response =>
        { chat := processResponse st1 response newMessages now
          request := some { messages := newMessages, systemModifier } }
    | .error e =>
        let failures := st.consecutiveFailures + 1
        let appError := classifyCallError e
        let appError :=
          match getConsecutiveFailureMessage failures with
          | some m => { appError with message := m }
          | none => appError
        { chat :=
            { st1 with
              consecutiveFailures := failures
              error := some appError
              state := .error }
          request := some { messages := newMessages, systemModifier } }

/-- Whether the current error is a `parse_error`, the check
`error?.type === 'parse_error'` in `retry`. -/
def errorIsParse : Option AppError → Bool
  | some e => e.type == .parse_error
  | none => false

/-- The `retry` operation of `src/hooks/useChat.ts`.  Guard:
`if (!lastUserMessage) return`.  The JSON-repair branch fires when the
render-time `error` is a `parse_error` and no repair has been attempted; it
sends the history augmented with a one-shot repair-instruction turn but
applies a successful outcome against the un-augmented `messages`, and maps
any failure of the repair call to `getParseError()`.  Otherwise `retry`
defers to `sendMessage(lastUserMessage)`; that inner call reads the
pre-`retry` state through its stale closure, so its own guard can still
refuse (leaving only the `setError(null)`/`setState('loading')` writes
`retry` performed before delegating). -/
def retry (st : ChatState) (now : Int) (outcome : RemoteOutcome) : OpResult :=
  if st.lastUserMessage = "" then
    { chat := st, request := none }
  else if ¬st.jsonRetryAttempted ∧ errorIsParse st.error then
    let retryMessages := st.messages ++
      [{ role := .user, content := buildJsonRetryMessage, timestamp := now }]
    let st1 : ChatState :=
      { st with error := none, state := .loading, jsonRetryAttempted := true }
    match callApiClassify outcome with
    | .ok response =>
        { chat := processResponse st1 response st.messages now
          request := some { messages := retryMessages, systemModifier := none } }
    | .error _ =>
        { chat := { st1 with error := some getParseError, state := .error }
          request := some { messages := retryMessages, systemModifier := none } }
  else
    if trimsToEmpty st.lastUserMessage ∨ st.state = .loading then
      { chat := { st with error := none, state := .loading }, request := none }
    else
      sendMessage st st.lastUserMessage now outcome

/-- The `startOver` operation: resets every cell to its initial value (it
also clears the persisted record; the storage effect is modelled with the
persistence adapter below). -/
def startOver (_st : ChatState) : ChatState :=
  initialChatState

/-- The `editAndRegenerate` operation: resets lifecycle, turns, document,
error, round and failure count, but keeps `originalIdea` (and, in the
source, also leaves `lastUserMessage` and `jsonRetryAttempted` untouched —
neither setter is called). -/
def editAndRegenerate (st : ChatState) : ChatState :=
  { st with
    state := .idle
    messages := []
    prd := none
    error := none
    clarificationRound := 0
    consecutiveFailures := 0 }

/-! ## API route response validation (`src/app/api/chat/route.ts`)

The route parses the model's text as JSON and validates only the `type`
discriminator: `if (parsed.type !== 'clarification' && parsed.type !== 'prd')`
it answers with status 422; otherwise it returns the parsed payload
verbatim.  A `JSON.parse` failure also answers 422. -/

/-- JSON payload produced by the model once `JSON.parse` succeeded, before
the route's `type` validation: an arbitrary `type` string plus the data of
the two known shapes (`none` when the corresponding field is absent). -/
structure ParsedModelOutput where
  type : String
  questions : Option (List String)
  prdData : Option PRDDocument
deriving DecidableEq, Repr

/-- Raw model output as the route sees it: either text that fails
`JSON.parse`, or a parsed JSON payload. -/
inductive ModelOutput where
  | invalidJson (raw : String)
  | parsed (p : ParsedModelOutput)
deriving DecidableEq, Repr

/-- The route's classification of the model output, as observed by the
client's `callApi`.  Returns `none` in the two corners where the route
passes its shallow `type` check but the verbatim payload does not inhabit
the client's `AIResponse` type (a `clarification` without `questions`, a
`prd` without `prd` data): the unchecked TypeScript cast has no
representation in the typed embedding. -/
def serverRespond : ModelOutput → Option RemoteOutcome
  | .invalidJson _ => some (.httpStatus 422)
  | .parsed p =>
      if p.type = "clarification" then
        p.questions.map (fun qs => .success (.clarification qs))
      else if p.type = "prd" then
        p.prdData.map (fun doc => .success (.prd doc))
      else
        some (.httpStatus 422)

/-! ## Reachability

One step of the system: one of the four mutating operations, together with
the outcome of the remote call it performs (when it performs one). -/

/-- Step relation on hook states generated by the four operations. -/
inductive Step : ChatState → ChatState → Prop where
  | send (st : ChatState) (content : String) (now : Int)
      (outcome : RemoteOutcome) :
      Step st (sendMessage st content now outcome).chat
  | retryOp (st : ChatState) (now : Int) (outcome : RemoteOutcome) :
      Step st (retry st now outcome).chat
  | startOverOp (st : ChatState) : Step st (startOver st)
  | editOp (st : ChatState) : Step st (editAndRegenerate st)

/-- States reachable from the initial state by any sequence of the four
operations and their response outcomes. -/
def Reachable (st : ChatState) : Prop :=
  Relation.ReflTransGen Step initialChatState st

/-! ## Persistence adapter (`src/lib/storage.ts`)

`localStorage` holds at most one record under the key `prd-builder-state`.
The stored string is always produced by `JSON.stringify` and consumed by
`JSON.parse`, so the store is embedded at the level of parsed JSON values:
`none` is an absent (or unparseable) record, `some j` a record that parses
to the JSON value `j`. -/

/-- Parsed JSON value. -/
inductive JsonValue where
  | null
  | bool (b : Bool)
  | num (n : Int)
  | str (s : String)
  | arr (elems : List JsonValue)
  | obj (fields : List (String × JsonValue))

/-- JavaScript truthiness of a JSON value, for the `!parsed.state` check. -/
def jsTruthy : Option JsonValue → Bool
  | none => false
  | some .null => false
  | some (.bool b) => b
  | some (.num n) => n ≠ 0
  | some (.str s) => s ≠ ""
  | some (.arr _) => true
  | some (.obj _) => true

/-- Field lookup on a JSON object (`undefined`, i.e. `none`, otherwise). -/
def jsonField (j : JsonValue) (key : String) : Option JsonValue :=
  match j with
  | .obj fields => fields.lookup key
  | _ => none

/-- The durable projection (`PersistedState` in `src/lib/types.ts`). -/
structure PersistedState where
  state : AppState
  messages : List Message
  prd : Option PRDDocument
  clarificationRound : Nat
  originalIdea : String
deriving DecidableEq, Repr

/-- The `DEFAULT_STATE` constant of `src/lib/storage.ts`. -/
def DEFAULT_STATE : PersistedState :=
  { state := .idle
    messages := []
    prd := none
    clarificationRound := 0
    originalIdea := "" }

/-- Wire form of an `AppState` under `JSON.stringify`. -/
def AppState.toWire : AppState → String
  | .idle => "idle"
  | .loading => "loading"
  | .clarifying => "clarifying"
  | .complete => "complete"
  | .error => "error"

/-- Reading an `AppState` back from its wire string. -/
def appStateOfWire : String → Option AppState
  | "idle" => some .idle
  | "loading" => some .loading
  | "clarifying" => some .clarifying
  | "complete" => some .complete
  | "error" => some .error
  | _ => none

/-- Wire form of a `MessageRole`. -/
def MessageRole.toWire : MessageRole → String
  | .user => "user"
  | .assistant => "assistant"

/-- Reading a `MessageRole` back from its wire string. -/
def roleOfWire : String → Option MessageRole
  | "user" => some .user
  | "assistant" => some .assistant
  | _ => none

/-- JSON form of a `Message`. -/
def encodeMessage (m : Message) : JsonValue :=
  .obj [("role", .str m.role.toWire),
        ("content", .str m.content),
        ("timestamp", .num m.timestamp)]

/-- JSON form of a string list. -/
def encodeStrings (l : List String) : JsonValue :=
  .arr (l.map .str)

/-- JSON form of a `Feature`. -/
def encodeFeature (f : Feature) : JsonValue :=
  .obj [("name", .str f.name), ("description", .str f.description)]

/-- JSON form of a `Requirement`. -/
def encodeRequirement (r : Requirement) : JsonValue :=
  .obj [("id", .str r.id), ("description", .str r.description)]

/-- JSON form of a `UserStory`. -/
def encodeUserStory (u : UserStory) : JsonValue :=
  .obj [("story", .str u.story),
        ("acceptanceCriteria", encodeStrings u.acceptanceCriteria)]

/-- JSON form of a `Phase`. -/
def encodePhase (p : Phase) : JsonValue :=
  .obj [("phase", .str p.phase), ("tasks", encodeStrings p.tasks)]

/-- JSON form of an `Assumption`. -/
def encodeAssumption (a : Assumption) : JsonValue :=
  .obj [("topic", .str a.topic),
        ("assumed", .str a.assumed),
        ("validateBy", .str a.validateBy)]

/-- JSON form of a `PRDDocument`.  `JSON.stringify` omits a key whose value
is `undefined`, so an absent `assumptions` field produces no key. -/
def encodePRD (d : PRDDocument) : JsonValue :=
  .obj ([("title", .str d.title),
         ("summary", .str d.summary),
         ("problemStatement", .str d.problemStatement),
         ("targetUsers", .str d.targetUsers),
         ("coreFeatures", .arr (d.coreFeatures.map encodeFeature)),
         ("functionalRequirements", .arr (d.functionalRequirements.map encodeRequirement)),
         ("nonFunctionalRequirements", .arr (d.nonFunctionalRequirements.map encodeRequirement)),
         ("userStories", .arr (d.userStories.map encodeUserStory)),
         ("outOfScope", encodeStrings d.outOfScope),
         ("technicalConsiderations", encodeStrings d.technicalConsiderations),
         ("implementationRoadmap", .arr (d.implementationRoadmap.map encodePhase))] ++
    (match d.assumptions with
     | none => []
     | some l => [("assumptions", .arr (l.map encodeAssumption))]))

/-- JSON form of a `PersistedState`, as produced by `JSON.stringify` in
`saveState`. -/
def encodePersistedState (s : PersistedState) : JsonValue :=
  .obj [("state", .str s.state.toWire),
        ("messages", .arr (s.messages.map encodeMessage)),
        ("prd", match s.prd with | none => .null | some d => encodePRD d),
        ("clarificationRound", .num (s.clarificationRound : Int)),
        ("originalIdea", .str s.originalIdea)]

/-- Decodes a JSON string. -/
def decodeString : Option JsonValue → Option String
  | some (.str s) => some s
  | _ => none

/-- Decodes a JSON number as an `Int`. -/
def decodeInt : Option JsonValue → Option Int
  | some (.num n) => some n
  | _ => none

/-- Decodes a JSON number as a `Nat`; a negative stored counter has no
representation in the typed state. -/
def decodeNat (j : Option JsonValue) : Option Nat :=
  match decodeInt j with
  | some n => if 0 ≤ n then some n.toNat else none
  | none => none

/-- Decodes one JSON string element. -/
def decodeJsonString : JsonValue → Option String
  | .str s => some s
  | _ => none

/-- Decodes a list of JSON values through an element decoder, failing if any
element fails. -/
def decodeList {α : Type} (dec : JsonValue → Option α) :
    List JsonValue → Option (List α)
  | [] => some []
  | j :: js =>
      match dec j, decodeList dec js with
      | some a, some t => some (a :: t)
      | _, _ => none

/-- Decodes a JSON array through an element decoder. -/
def decodeArr {α : Type} (dec : JsonValue → Option α) :
    Option JsonValue → Option (List α)
  | some (.arr xs) => decodeList dec xs
  | _ => none

/-- Decodes a JSON array of strings. -/
def decodeStrings : Option JsonValue → Option (List String) :=
  decodeArr decodeJsonString

/-- Decodes a `Message`. -/
def decodeMessage (j : JsonValue) : Option Message := do
  let role ← decodeString (jsonField j "role")
  let role ← roleOfWire role
  let content ← decodeString (jsonField j "content")
  let timestamp ← decodeInt (jsonField j "timestamp")
  pure { role, content, timestamp }

/-- Decodes a `Feature`. -/
def decodeFeature (j : JsonValue) : Option Feature := do
  let name ← decodeString (jsonField j "name")
  let description ← decodeString (jsonField j "description")
  pure { name, description }

/-- Decodes a `Requirement`. -/
def decodeRequirement (j : JsonValue) : Option Requirement := do
  let id ← decodeString (jsonField j "id")
  let description ← decodeString (jsonField j "description")
  pure { id, description }

/-- Decodes a `UserStory`. -/
def decodeUserStory (j : JsonValue) : Option UserStory := do
  let story ← decodeString (jsonField j "story")
  let acceptanceCriteria ← decodeStrings (jsonField j "acceptanceCriteria")
  pure { story, acceptanceCriteria }

/-- Decodes a `Phase`. -/
def decodePhase (j : JsonValue) : Option Phase := do
  let phase ← decodeString (jsonField j "phase")
  let tasks ← decodeStrings (jsonField j "tasks")
  pure { phase, tasks }

/-- Decodes an `Assumption`. -/
def decodeAssumption (j : JsonValue) : Option Assumption := do
  let topic ← decodeString (jsonField j "topic")
  let assumed ← decodeString (jsonField j "assumed")
  let validateBy ← decodeString (jsonField j "validateBy")
  pure { topic, assumed, validateBy }

/-- Decodes a `PRDDocument`; a missing `assumptions` key reads back as the
absent optional field. -/
def decodePRD (j : JsonValue) : Option PRDDocument := do
  let title ← decodeString (jsonField j "title")
  let summary ← decodeString (jsonField j "summary")
  let problemStatement ← decodeString (jsonField j "problemStatement")
  let targetUsers ← decodeString (jsonField j "targetUsers")
  let coreFeatures ← decodeArr decodeFeature (jsonField j "coreFeatures")
  let functionalRequirements ← decodeArr decodeRequirement (jsonField j "functionalRequirements")
  let nonFunctionalRequirements ← decodeArr decodeRequirement (jsonField j "nonFunctionalRequirements")
  let userStories ← decodeArr decodeUserStory (jsonField j "userStories")
  let outOfScope ← decodeStrings (jsonField j "outOfScope")
  let technicalConsiderations ← decodeStrings (jsonField j "technicalConsiderations")
  let implementationRoadmap ← decodeArr decodePhase (jsonField j "implementationRoadmap")
  let assumptions ←
    match jsonField j "assumptions" with
    | none => some none
    | some ja => (decodeArr decodeAssumption (some ja)).map some
  pure { title, summary, problemStatement, targetUsers, coreFeatures,
         functionalRequirements, nonFunctionalRequirements, userStories,
         outOfScope, technicalConsiderations, implementationRoadmap,
         assumptions }

/-- Reads the persisted `prd` field: `null` is the absent document, any
other present value is decoded as a document. -/
def decodePrdField : Option JsonValue → Option (Option PRDDocument)
  | some .null => some none
  | some jd => (decodePRD jd).map some
  | none => none

/-- Reads the typed `PersistedState` out of a parsed record, the
`JSON.parse(stored) as PersistedState` cast.  `none` when the cast result
does not inhabit the declared type (such a corrupt record is not
representable in the typed embedding). -/
def castPersistedState (j : JsonValue) : Option PersistedState := do
  let stateStr ← decodeString (jsonField j "state")
  let state ← appStateOfWire stateStr
  let messages ← decodeArr decodeMessage (jsonField j "messages")
  let prd ← decodePrdField (jsonField j "prd")
  let clarificationRound ← decodeNat (jsonField j "clarificationRound")
  let originalIdea ← decodeString (jsonField j "originalIdea")
  pure { state, messages, prd, clarificationRound, originalIdea }

/-- Whether a JSON value is an array, the `Array.isArray` check. -/
def isJsonArray : Option JsonValue → Bool
  | some (.arr _) => true
  | _ => false

/-- The `loadState` function of `src/lib/storage.ts`: an absent record
yields the defaults; a present record is structurally checked only by
`!parsed.state || !Array.isArray(parsed.messages)` and otherwise returned
through the unchecked cast. -/
def loadState (store : Option JsonValue) : PersistedState :=
  match store with
  | none => DEFAULT_STATE
  | some j =>
      if jsTruthy (jsonField j "state") && isJsonArray (jsonField j "messages") then
        match castPersistedState j with
        | some s => s
        | none => DEFAULT_STATE
      else
        DEFAULT_STATE

/-- The `saveState` function of `src/lib/storage.ts`: overwrites the single
record with the serialized snapshot. -/
def saveState (s : PersistedState) : Option JsonValue :=
  some (encodePersistedState s)

/-- Hydration performed by `useChat` on mount: restores the persisted
fields, collapsing a stale `loading` state to `idle`; the transient cells
(`error`, `consecutiveFailures`, `lastUserMessage`, `jsonRetryAttempted`)
are not persisted and keep their initial values. -/
def hydrate (p : PersistedState) : ChatState :=
  { state := if p.state = .loading then .idle else p.state
    messages := p.messages
    prd := p.prd
    error := none
    clarificationRound := p.clarificationRound
    originalIdea := p.originalIdea
    consecutiveFailures := 0
    lastUserMessage := ""
    jsonRetryAttempted := false }

/-! ## Markdown export (`src/lib/markdown.ts`) and PRD preview -/

/-- The `generateMarkdown` function of `src/lib/markdown.ts`, section by
section.  The final step reads `prd.assumptions.length` without a presence
check; when the optional `assumptions` field is absent this member access
throws a `TypeError`, rendered here as `none`. -/
def generateMarkdown (prd : PRDDocument) : Option String :=
  let sections : List String :=
    ["# " ++ prd.title ++ "\n",
     "## Summary\n\n" ++ prd.summary ++ "\n",
     "## Problem Statement\n\n" ++ prd.problemStatement ++ "\n",
     "## Target Users\n\n" ++ prd.targetUsers ++ "\n",
     "## Core Features\n"] ++
    prd.coreFeatures.enum.map (fun p =>
      "### " ++ toString (p.1 + 1) ++ ". " ++ p.2.name ++ "\n\n" ++
        p.2.description ++ "\n") ++
    ["## Functional Requirements\n"] ++
    prd.functionalRequirements.map (fun r =>
      "- **" ++ r.id ++ ":** " ++ r.description) ++
    [""] ++
    ["## Non-Functional Requirements\n"] ++
    prd.nonFunctionalRequirements.map (fun r =>
      "- **" ++ r.id ++ ":** " ++ r.description) ++
    [""] ++
    ["## User Stories\n"] ++
    prd.userStories.enum.flatMap (fun p =>
      ["### User Story " ++ toString (p.1 + 1) ++ "\n",
       p.2.story ++ "\n",
       "**Acceptance Criteria:**"] ++
      p.2.acceptanceCriteria.map (fun c => "- " ++ c) ++ [""]) ++
    ["## Out of Scope\n"] ++
    prd.outOfScope.map (fun item => "- " ++ item) ++
    [""] ++
    ["## Technical Considerations\n"] ++
    prd.technicalConsiderations.map (fun item => "- " ++ item) ++
    [""] ++
    ["## Implementation Roadmap\n"] ++
    prd.implementationRoadmap.flatMap (fun ph =>
      ["### " ++ ph.phase ++ "\n"] ++
      ph.tasks.map (fun t => "- " ++ t) ++ [""])
  match prd.assumptions with
  | none => none
  | some assumptions =>
      let sections := sections ++
        (if 0 < assumptions.length then
          ["## Assumptions\n",
           "> **Note:** The following assumptions were made during PRD generation. Please verify these are correct.\n"] ++
          assumptions.flatMap (fun a =>
            ["### " ++ a.topic ++ "\n",
             "- **Assumed:** " ++ a.assumed,
             "- **Validate by:** " ++ a.validateBy,
             ""])
        else [])
      some (String.intercalate "\n" sections)

/-- The assumptions banner of `src/components/PRDPreview.tsx`:
`prd.assumptions.length > 0 && (...)` — the same unguarded member access,
`none` when the field is absent. -/
def prdPreviewAssumptionsBanner (prd : PRDDocument) : Option Bool :=
  prd.assumptions.map (fun l => decide (0 < l.length))

/-! ## Theorems -/

/-- Claim C3 (counterexample): the spec reads "HttpFailure(5xx) →
server_error", but `getErrorFromStatus` maps only the four statuses 500,
502, 503, 504 to `server_error`; at the 5xx status 501 it yields `unknown`,
refuting the claim as stated. -/
theorem responseClassifier_5xx_counterexample :
    (500 ≤ 501 ∧ 501 ≤ 599) ∧
      (getErrorFromStatus 501).type = ErrorType.unknown ∧
      (getErrorFromStatus 501).type ≠ ErrorType.server_error := by
  decide

/-- Claim C3 (amended): the classifier maps 429 to `rate_limited`, exactly
the statuses 500, 502, 503 and 504 to `server_error` (other statuses,
including other 5xx codes such as 501, to `unknown`), Timeout to `timeout`,
NetworkFailure to `network`, MalformedResponse to `malformed_response`
(`parse_error` in the source), and every descriptor it produces has
`retryable = true`. -/
theorem responseClassifier_amended :
    (∀ status : Nat, (getErrorFromStatus status).type =
      (if status = 429 then ErrorType.rate_limit
       else if status = 500 ∨ status = 502 ∨ status = 503 ∨ status = 504 then
         ErrorType.server_error
       else ErrorType.unknown)) ∧
    getTimeoutError.type = ErrorType.timeout ∧
    getNetworkError.type = ErrorType.network ∧
    getParseError.type = ErrorType.parse_error ∧
    (∀ status : Nat, (getErrorFromStatus status).retryable = true) ∧
    getTimeoutError.retryable = true ∧
    getNetworkError.retryable = true ∧
    getParseError.retryable = true := by
  refine ⟨?_, rfl, rfl, rfl, ?_, rfl, rfl, rfl⟩
  · intro status
    by_cases h1 : status = 429 <;>
      by_cases h2 : status = 500 ∨ status = 502 ∨ status = 503 ∨ status = 504 <;>
        simp [getErrorFromStatus, h1, h2]
  · intro status
    unfold getErrorFromStatus
    split
    · rfl
    · split <;> rfl

/-- Claim C7: a `send` with text that trims to the empty string, or issued
while the state is `loading` (AwaitingResponse), is a complete no-op: no
request is issued and the state is returned unchanged. -/
theorem sendMessage_noop (st : ChatState) (content : String) (now : Int)
    (outcome : RemoteOutcome)
    (h : trimsToEmpty content = true ∨ st.state = .loading) :
    sendMessage st content now outcome = { chat := st, request := none } := by
  unfold sendMessage
  rw [if_pos h]

/-- Claim C7 witness: sending the whitespace-only string from the initial
state changes nothing, and sending non-blank text while loading changes
nothing either. -/
theorem sendMessage_noop_witness :
    (trimsToEmpty "   " = true ∨ initialChatState.state = AppState.loading) ∧
      sendMessage initialChatState "   " 0 RemoteOutcome.timeout =
        { chat := initialChatState, request := none } ∧
      sendMessage { initialChatState with state := AppState.loading } "hi" 0
          RemoteOutcome.timeout =
        { chat := { initialChatState with state := AppState.loading }
          request := none } :=
  ⟨Or.inl (by decide),
   sendMessage_noop initialChatState "   " 0 .timeout (Or.inl (by decide)),
   sendMessage_noop { initialChatState with state := AppState.loading } "hi" 0
     .timeout (Or.inr rfl)⟩

/-- Claim C4: whenever a `send` actually goes out, the system modifier of
the outbound request is a function of `next_round = clarificationRound + 1`:
force-generation when `next_round ≥ 5`, the cap warning parameterized by
`next_round` when `next_round ≥ 4`, and no modifier otherwise. -/
theorem sendMessage_systemModifier (st : ChatState) (content : String)
    (now : Int) (outcome : RemoteOutcome)
    (h1 : trimsToEmpty content = false) (h2 : st.state ≠ .loading) :
    ((sendMessage st content now outcome).request).map ApiRequest.systemModifier =
      some (if 5 ≤ st.clarificationRound + 1 then some buildForceGenerateMessage
            else if 4 ≤ st.clarificationRound + 1 then
              some (buildClarificationCapMessage (st.clarificationRound + 1))
            else none) := by
  cases hc : callApiClassify outcome <;>
    simp [sendMessage, h1, h2, hc, systemModifierFor, MAX_CLARIFICATION_ROUNDS]

/-- Claim C4 witness: with four clarification rounds completed the next
`send` attaches the force-generation modifier. -/
theorem sendMessage_systemModifier_witness :
    trimsToEmpty "more detail" = false ∧
    ({ initialChatState with
        clarificationRound := 4
        state := AppState.clarifying } : ChatState).state ≠ AppState.loading ∧
    ((sendMessage
        { initialChatState with
          clarificationRound := 4
          state := AppState.clarifying } "more detail" 0
        (RemoteOutcome.httpStatus 503)).request).map ApiRequest.systemModifier =
      some (some buildForceGenerateMessage) :=
  ⟨by decide, by decide, by
    have h := sendMessage_systemModifier
      { initialChatState with clarificationRound := 4, state := AppState.clarifying }
      "more detail" 0 (RemoteOutcome.httpStatus 503) (by decide) (by decide)
    simpa using h⟩

/-- Claim C1: a remote reply whose parsed payload carries a `type` that is
neither `clarification` nor `prd` is answered by the API route with status
422, and applying that outcome through `send` leaves the machine in the
`Failed` (`error`) state with a `malformed_response` (`parse_error`)
failure. -/
theorem unknownResponseType_malformed (st : ChatState) (content : String)
    (now : Int) (p : ParsedModelOutput) (o : RemoteOutcome)
    (h1 : trimsToEmpty content = false) (h2 : st.state ≠ .loading)
    (ht1 : p.type ≠ "clarification") (ht2 : p.type ≠ "prd")
    (ho : serverRespond (.parsed p) = some o) :
    serverRespond (.parsed p) = some (.httpStatus 422) ∧
    (sendMessage st content now o).chat.state = .error ∧
    ((sendMessage st content now o).chat.error).map AppError.type =
      some ErrorType.parse_error := by
  have h422 : serverRespond (.parsed p) = some (.httpStatus 422) := by
    simp [serverRespond, ht1, ht2]
  have hoeq : o = .httpStatus 422 := by
    rw [h422] at ho
    exact (Option.some.inj ho).symm
  subst hoeq
  refine ⟨h422, ?_, ?_⟩ <;>
    cases hm : getConsecutiveFailureMessage (st.consecutiveFailures + 1) <;>
      simp [sendMessage, h1, h2, callApiClassify, classifyCallError, hm,
        getParseError]

/-- Claim C1 witness: a payload typed `"text"` sent from the initial state
is rejected as 422 and surfaces as a `parse_error` failure. -/
theorem unknownResponseType_malformed_witness :
    trimsToEmpty "make an app" = false ∧
    initialChatState.state ≠ AppState.loading ∧
    serverRespond (.parsed { type := "text", questions := none, prdData := none }) =
      some (.httpStatus 422) ∧
    (sendMessage initialChatState "make an app" 0 (.httpStatus 422)).chat.state =
      AppState.error ∧
    ((sendMessage initialChatState "make an app" 0
        (.httpStatus 422)).chat.error).map AppError.type =
      some ErrorType.parse_error := by
  have h := unknownResponseType_malformed initialChatState "make an app" 0
    { type := "text", questions := none, prdData := none } (.httpStatus 422)
    (by decide) (by decide) (by decide) (by decide) rfl
  exact ⟨by decide, by decide, h.1, h.2.1, h.2.2⟩

/-- Claim C6: when the consecutive-failure count reaches 3 or more, the
stored failure keeps the classified kind and retryability but its message
is the fixed repeated-trouble text, and any successful `send` resets the
count to 0. -/
theorem consecutiveFailure_override (st : ChatState) (content : String)
    (now : Int) (outcome : RemoteOutcome)
    (h1 : trimsToEmpty content = false) (h2 : st.state ≠ .loading) :
    (∀ e, callApiClassify outcome = .error e → 3 ≤ st.consecutiveFailures + 1 →
        (sendMessage st content now outcome).chat.error =
          some { type := (classifyCallError e).type
                 message := "Having trouble connecting. Try again later."
                 retryable := (classifyCallError e).retryable } ∧
        (sendMessage st content now outcome).chat.consecutiveFailures =
          st.consecutiveFailures + 1) ∧
    (∀ r, callApiClassify outcome = .ok r →
        (sendMessage st content now outcome).chat.consecutiveFailures = 0) := by
  constructor
  · intro e he h3
    have hm : getConsecutiveFailureMessage (st.consecutiveFailures + 1) =
        some "Having trouble connecting. Try again later." := by
      simp [getConsecutiveFailureMessage, h3]
    cases hce : classifyCallError e with
    | mk t m r =>
        simp [sendMessage, h1, h2, he, hm, hce]
  · intro r hr
    cases r <;> simp [sendMessage, h1, h2, hr, processResponse]

/-- Claim C6 witness: a third consecutive timeout displays the fixed
repeated-trouble text while keeping kind `timeout` and `retryable = true`,
and a successful reply resets the count. -/
theorem consecutiveFailure_override_witness :
    trimsToEmpty "hi" = false ∧
    ({ initialChatState with
        consecutiveFailures := 2
        state := AppState.error } : ChatState).state ≠ AppState.loading ∧
    callApiClassify RemoteOutcome.timeout = .error CallError.timeout ∧
    (3 : Nat) ≤ 2 + 1 ∧
    (sendMessage
        { initialChatState with
          consecutiveFailures := 2
          state := AppState.error } "hi" 0 RemoteOutcome.timeout).chat.error =
      some { type := ErrorType.timeout
             message := "Having trouble connecting. Try again later."
             retryable := true } := by
  refine ⟨by decide, by decide, rfl, by decide, ?_⟩
  exact ((consecutiveFailure_override
    { initialChatState with consecutiveFailures := 2, state := AppState.error }
    "hi" 0 RemoteOutcome.timeout (by decide) (by decide)).1
    CallError.timeout rfl (by decide)).1

/-- Claim C9: if the remote call of the automatic JSON-repair retry fails
for any reason (any classified failure), the stored failure is the plain
`getParseError` descriptor (kind `parse_error`, default parse message), and
the consecutive-failure count is left unchanged. -/
theorem jsonRepairRetry_failure (st : ChatState) (now : Int)
    (outcome : RemoteOutcome) (e : CallError)
    (hl : st.lastUserMessage ≠ "")
    (hp : errorIsParse st.error = true)
    (hflag : st.jsonRetryAttempted = false)
    (herr : callApiClassify outcome = .error e) :
    (retry st now outcome).chat.state = .error ∧
    (retry st now outcome).chat.error = some getParseError ∧
    getParseError.type = ErrorType.parse_error ∧
    getParseError.message = "Unable to process response. Please try again." ∧
    (retry st now outcome).chat.consecutiveFailures =
      st.consecutiveFailures := by
  refine ⟨?_, ?_, rfl, rfl, ?_⟩ <;> simp [retry, hl, hp, hflag, herr]

/-- Claim C9 witness: a timeout during the repair call of a parse-error
retry surfaces as `getParseError` and does not change the count. -/
theorem jsonRepairRetry_failure_witness :
    (({ initialChatState with
        state := AppState.error
        error := some getParseError
        lastUserMessage := "hi"
        consecutiveFailures := 1 } : ChatState).lastUserMessage ≠ "") ∧
    (retry
        { initialChatState with
          state := AppState.error
          error := some getParseError
          lastUserMessage := "hi"
          consecutiveFailures := 1 } 5 RemoteOutcome.timeout).chat.error =
      some getParseError ∧
    (retry
        { initialChatState with
          state := AppState.error
          error := some getParseError
          lastUserMessage := "hi"
          consecutiveFailures := 1 } 5 RemoteOutcome.timeout).chat.consecutiveFailures = 1 := by
  have h := jsonRepairRetry_failure
    { initialChatState with
      state := AppState.error
      error := some getParseError
      lastUserMessage := "hi"
      consecutiveFailures := 1 } 5 RemoteOutcome.timeout CallError.timeout
    (by decide) (by decide) (by decide) rfl
  exact ⟨by decide, h.2.1, h.2.2.2.2⟩

/-- Claim C5: the first `retry` after a `malformed_response` performs
exactly one automatic JSON-repair attempt — it sends the history augmented
by the one-shot repair-instruction turn (and no system modifier), applies a
successful outcome against the un-augmented history (the repair turn is not
kept; for a document outcome the visible history is unchanged), and on any
failure surfaces `malformed_response` again with the repair flag set, after
which a further `retry` runs the plain `send` with the captured last user
text instead of another automatic repair. -/
theorem jsonRepair_single_attempt (st : ChatState) (now : Int)
    (outcome : RemoteOutcome)
    (hl : st.lastUserMessage ≠ "")
    (hlt : trimsToEmpty st.lastUserMessage = false)
    (hp : errorIsParse st.error = true)
    (hflag : st.jsonRetryAttempted = false) :
    (retry st now outcome).request =
      some { messages := st.messages ++
               [{ role := .user
                  content := buildJsonRetryMessage
                  timestamp := now }]
             systemModifier := none } ∧
    (∀ qs, callApiClassify outcome = .ok (.clarification qs) →
        (retry st now outcome).chat.messages =
          st.messages ++
            [{ role := .assistant
               content := String.intercalate "\n\n" qs
               timestamp := now }] ∧
        (retry st now outcome).chat.state = .clarifying) ∧
    (∀ doc, callApiClassify outcome = .ok (.prd doc) →
        (retry st now outcome).chat.messages = st.messages ∧
        (retry st now outcome).chat.prd = some doc ∧
        (retry st now outcome).chat.state = .complete) ∧
    (∀ e, callApiClassify outcome = .error e →
        (retry st now outcome).chat.state = .error ∧
        (retry st now outcome).chat.error = some getParseError ∧
        (retry st now outcome).chat.jsonRetryAttempted = true ∧
        (retry st now outcome).chat.lastUserMessage = st.lastUserMessage ∧
        (∀ now2 outcome2,
            retry (retry st now outcome).chat now2 outcome2 =
              sendMessage (retry st now outcome).chat st.lastUserMessage
                now2 outcome2)) := by
  refine ⟨?_, ?_, ?_, ?_⟩
  · cases hc : callApiClassify outcome <;> simp [retry, hl, hp, hflag, hc]
  · intro qs hc
    refine ⟨?_, ?_⟩ <;> simp [retry, hl, hp, hflag, hc, processResponse]
  · intro doc hc
    refine ⟨?_, ?_, ?_⟩ <;> simp [retry, hl, hp, hflag, hc, processResponse]
  · intro e hc
    have hstate : (retry st now outcome).chat.state = .error := by
      simp [retry, hl, hp, hflag, hc]
    have herror : (retry st now outcome).chat.error = some getParseError := by
      simp [retry, hl, hp, hflag, hc]
    have hflag2 : (retry st now outcome).chat.jsonRetryAttempted = true := by
      simp [retry, hl, hp, hflag, hc]
    have hlast : (retry st now outcome).chat.lastUserMessage =
        st.lastUserMessage := by
      simp [retry, hl, hp, hflag, hc]
    refine ⟨hstate, herror, hflag2, hlast, ?_⟩
    intro now2 outcome2
    have hl2 : ¬((retry st now outcome).chat.lastUserMessage = "") := by
      rw [hlast]; exact hl
    have hnotrepair :
        ¬(¬(retry st now outcome).chat.jsonRetryAttempted = true ∧
          errorIsParse (retry st now outcome).chat.error = true) := by
      rw [hflag2]; simp
    have hlt2 : trimsToEmpty (retry st now outcome).chat.lastUserMessage = false := by
      rw [hlast]; exact hlt
    have hst2 : ¬((retry st now outcome).chat.state = .loading) := by
      rw [hstate]; simp
    conv =>
      lhs
      rw [retry]
    rw [if_neg hl2, if_neg hnotrepair, if_neg ?_]
    · rw [hlast]
    · rw [hlt2, hstate]
      simp

/-- Claim C5 witness: from a parse-error failure state, the repair retry
sends the augmented history; when it fails again, the state surfaces
`parse_error` with the repair flag set. -/
theorem jsonRepair_single_attempt_witness :
    (({ initialChatState with
        state := AppState.error
        error := some getParseError
        lastUserMessage := "hi"
        messages := [{ role := .user, content := "m", timestamp := 0 }] } :
          ChatState).lastUserMessage ≠ "") ∧
    (retry
        { initialChatState with
          state := AppState.error
          error := some getParseError
          lastUserMessage := "hi"
          messages := [{ role := .user, content := "m", timestamp := 0 }] }
        7 RemoteOutcome.network).request =
      some { messages :=
               [{ role := .user, content := "m", timestamp := 0 },
                { role := .user, content := buildJsonRetryMessage, timestamp := 7 }]
             systemModifier := none } ∧
    (retry
        { initialChatState with
          state := AppState.error
          error := some getParseError
          lastUserMessage := "hi"
          messages := [{ role := .user, content := "m", timestamp := 0 }] }
        7 RemoteOutcome.network).chat.jsonRetryAttempted = true := by
  have h := jsonRepair_single_attempt
    { initialChatState with
      state := AppState.error
      error := some getParseError
      lastUserMessage := "hi"
      messages := [{ role := .user, content := "m", timestamp := 0 }] }
    7 RemoteOutcome.network (by decide) (by decide) (by decide) (by decide)
  exact ⟨by decide, h.1, (h.2.2.2 CallError.network rfl).2.2.1⟩

/-- Claim C10: `generateMarkdown` (and the PRD preview banner) read
`prd.assumptions.length` without a presence check, so they fault on every
document whose optional `assumptions` field is absent and are total
whenever it is present (even as an empty list). -/
theorem generateMarkdown_assumptions_access (prd : PRDDocument) :
    (prd.assumptions = none →
      generateMarkdown prd = none ∧ prdPreviewAssumptionsBanner prd = none) ∧
    (∀ l, prd.assumptions = some l →
      (generateMarkdown prd).isSome = true ∧
      (prdPreviewAssumptionsBanner prd).isSome = true) := by
  constructor
  · intro h
    constructor <;> simp [generateMarkdown, prdPreviewAssumptionsBanner, h]
  · intro l h
    constructor <;> simp [generateMarkdown, prdPreviewAssumptionsBanner, h]

/-- Minimal generated document used as a concrete witness input. -/
def samplePRD : PRDDocument :=
  { title := "T"
    summary := "S"
    problemStatement := "P"
    targetUsers := "U"
    coreFeatures := [{ name := "F", description := "D" }]
    functionalRequirements := [{ id := "FR-1", description := "R" }]
    nonFunctionalRequirements := [{ id := "NFR-1", description := "R" }]
    userStories := [{ story := "st", acceptanceCriteria := ["a"] }]
    outOfScope := ["o"]
    technicalConsiderations := ["t"]
    implementationRoadmap := [{ phase := "Phase 1", tasks := ["t1"] }]
    assumptions := none }

/-- Claim C10 witness: the export faults on `samplePRD` (absent
`assumptions`) and succeeds once the field is present as an empty list. -/
theorem generateMarkdown_assumptions_access_witness :
    samplePRD.assumptions = none ∧
    generateMarkdown samplePRD = none ∧
    prdPreviewAssumptionsBanner samplePRD = none ∧
    ({ samplePRD with assumptions := some [] } : PRDDocument).assumptions =
      some [] ∧
    (generateMarkdown { samplePRD with assumptions := some [] }).isSome = true := by
  have h1 := (generateMarkdown_assumptions_access samplePRD).1 rfl
  have h2 := (generateMarkdown_assumptions_access
    { samplePRD with assumptions := some [] }).2 [] rfl
  exact ⟨rfl, h1.1, h1.2, rfl, h2.1⟩

/-! ## Round-trip lemmas for the persistence adapter -/

theorem decodeList_map_encode {α : Type} (enc : α → JsonValue)
    (dec : JsonValue → Option α) (h : ∀ a, dec (enc a) = some a)
    (l : List α) : decodeList dec (l.map enc) = some l := by
  induction l with
  | nil => rfl
  | cons a t ih => simp [decodeList, h, ih]

theorem decodeMessage_encodeMessage (m : Message) :
    decodeMessage (encodeMessage m) = some m := by
  cases m with
  | mk role content timestamp =>
      cases role <;>
        simp [decodeMessage, encodeMessage, jsonField, decodeString,
          decodeInt, roleOfWire, MessageRole.toWire, List.lookup]

theorem decodeStrings_encodeStrings (l : List String) :
    decodeStrings (some (encodeStrings l)) = some l := by
  simp only [decodeStrings, encodeStrings, decodeArr]
  exact decodeList_map_encode JsonValue.str decodeJsonString (fun a => rfl) l

theorem decodeFeature_encodeFeature (f : Feature) :
    decodeFeature (encodeFeature f) = some f := by
  cases f with
  | mk name description =>
      simp [decodeFeature, encodeFeature, jsonField, decodeString, List.lookup]

theorem decodeRequirement_encodeRequirement (r : Requirement) :
    decodeRequirement (encodeRequirement r) = some r := by
  cases r with
  | mk id description =>
      simp [decodeRequirement, encodeRequirement, jsonField, decodeString,
        List.lookup]

theorem decodeUserStory_encodeUserStory (u : UserStory) :
    decodeUserStory (encodeUserStory u) = some u := by
  cases u with
  | mk story acceptanceCriteria =>
      simp [decodeUserStory, encodeUserStory, jsonField, decodeString,
        List.lookup, decodeStrings_encodeStrings]

theorem decodePhase_encodePhase (p : Phase) :
    decodePhase (encodePhase p) = some p := by
  cases p with
  | mk phase tasks =>
      simp [decodePhase, encodePhase, jsonField, decodeString, List.lookup,
        decodeStrings_encodeStrings]

theorem decodeAssumption_encodeAssumption (a : Assumption) :
    decodeAssumption (encodeAssumption a) = some a := by
  cases a with
  | mk topic assumed validateBy =>
      simp [decodeAssumption, encodeAssumption, jsonField, decodeString,
        List.lookup]

theorem decodePRD_encodePRD (d : PRDDocument) :
    decodePRD (encodePRD d) = some d := by
  cases d with
  | mk title summary problemStatement targetUsers coreFeatures
      functionalRequirements nonFunctionalRequirements userStories
      outOfScope technicalConsiderations implementationRoadmap assumptions =>
      cases assumptions <;>
        simp [decodePRD, encodePRD, jsonField, decodeString, decodeArr,
          List.lookup, decodeStrings_encodeStrings,
          decodeList_map_encode _ _ decodeFeature_encodeFeature,
          decodeList_map_encode _ _ decodeRequirement_encodeRequirement,
          decodeList_map_encode _ _ decodeUserStory_encodeUserStory,
          decodeList_map_encode _ _ decodePhase_encodePhase,
          decodeList_map_encode _ _ decodeAssumption_encodeAssumption]

theorem appStateOfWire_toWire (s : AppState) :
    appStateOfWire s.toWire = some s := by
  cases s <;> rfl

theorem decodePrdField_encodePRD (d : PRDDocument) :
    decodePrdField (some (encodePRD d)) = some (some d) := by
  have hobj : decodePrdField (some (encodePRD d)) =
      (decodePRD (encodePRD d)).map some := rfl
  rw [hobj, decodePRD_encodePRD]
  rfl

theorem castPersistedState_encodePersistedState (s : PersistedState) :
    castPersistedState (encodePersistedState s) = some s := by
  cases s with
  | mk state messages prd clarificationRound originalIdea =>
      cases prd with
      | none =>
          simp [castPersistedState, encodePersistedState, jsonField,
            decodeString, decodeNat, decodeInt, List.lookup,
            appStateOfWire_toWire, decodePrdField,
            decodeList_map_encode _ _ decodeMessage_encodeMessage, decodeArr]
      | some d =>
          simp [castPersistedState, encodePersistedState, jsonField,
            decodeString, decodeNat, decodeInt, List.lookup,
            appStateOfWire_toWire, decodePrdField_encodePRD,
            decodeList_map_encode _ _ decodeMessage_encodeMessage, decodeArr]

theorem loadState_saveState (s : PersistedState) :
    loadState (saveState s) = s := by
  have htruthy : jsTruthy (jsonField (encodePersistedState s) "state") = true := by
    cases s with
    | mk state messages prd clarificationRound originalIdea =>
        cases state <;> rfl
  have harr : isJsonArray (jsonField (encodePersistedState s) "messages") = true := by
    cases s with
    | mk state messages prd clarificationRound originalIdea =>
        cases state <;> rfl
  simp [loadState, saveState, htruthy, harr,
    castPersistedState_encodePersistedState]

/-- Claim C8: saving a snapshot with `saveState` and loading it back with
`loadState`, then hydrating, restores the same turns, document,
clarification round and original idea, with a stale `loading` lifecycle
collapsed to `idle`; the transient retry bookkeeping (`error`,
`consecutiveFailures`, `lastUserMessage`, `jsonRetryAttempted`) is not
persisted and comes back at its defaults. -/
theorem persistedSnapshot_roundtrip (snap : PersistedState) :
    (hydrate (loadState (saveState snap))).state =
      (if snap.state = .loading then AppState.idle else snap.state) ∧
    (hydrate (loadState (saveState snap))).messages = snap.messages ∧
    (hydrate (loadState (saveState snap))).prd = snap.prd ∧
    (hydrate (loadState (saveState snap))).clarificationRound =
      snap.clarificationRound ∧
    (hydrate (loadState (saveState snap))).originalIdea = snap.originalIdea ∧
    (hydrate (loadState (saveState snap))).error = none ∧
    (hydrate (loadState (saveState snap))).consecutiveFailures = 0 ∧
    (hydrate (loadState (saveState snap))).lastUserMessage = "" ∧
    (hydrate (loadState (saveState snap))).jsonRetryAttempted = false := by
  rw [loadState_saveState]
  exact ⟨rfl, rfl, rfl, rfl, rfl, rfl, rfl, rfl, rfl⟩

/-! ## Reachability invariant (claim C2) -/

/-- Reachable state violating "document present iff Complete": a document
outcome completes the conversation, then a further `send` (which no guard
forbids from `complete`) receives a clarification outcome; `processResponse`
never clears `prd`, so the document survives into the `clarifying` state. -/
def completedThenClarified : ChatState :=
  (sendMessage
    (sendMessage initialChatState "Build an invoice tracker" 0
      (.success (.prd samplePRD))).chat
    "Add reports" 1 (.success (.clarification ["Q1"]))).chat

/-- Claim C2 (counterexample): `completedThenClarified` is reachable by two
`send` steps, holds a generated document, but its lifecycle state is
`clarifying`, not `complete` — refuting "document present iff Complete". -/
theorem lifecycle_document_iff_counterexample :
    Reachable completedThenClarified ∧
    completedThenClarified.prd.isSome = true ∧
    completedThenClarified.state = AppState.clarifying ∧
    ¬(completedThenClarified.state = AppState.complete ↔
        completedThenClarified.prd.isSome = true) := by
  refine ⟨?_, by decide, by decide, by decide⟩
  exact Relation.ReflTransGen.tail
    (Relation.ReflTransGen.single
      (Step.send initialChatState "Build an invoice tracker" 0
        (.success (.prd samplePRD))))
    (Step.send _ "Add reports" 1 (.success (.clarification ["Q1"])))

theorem sendMessage_preserves_invariant (st : ChatState) (content : String)
    (now : Int) (outcome : RemoteOutcome)
    (h : (st.state = .error ↔ st.error.isSome = true) ∧
         (st.state = .complete → st.prd.isSome = true)) :
    ((sendMessage st content now outcome).chat.state = .error ↔
      (sendMessage st content now outcome).chat.error.isSome = true) ∧
    ((sendMessage st content now outcome).chat.state = .complete →
      (sendMessage st content now outcome).chat.prd.isSome = true) := by
  by_cases hg : trimsToEmpty content = true ∨ st.state = .loading
  · unfold sendMessage
    rw [if_pos hg]
    exact h
  · obtain ⟨h1, h2⟩ := not_or.mp hg
    cases hc : callApiClassify outcome with
    | ok r =>
        cases r <;> simp [sendMessage, h1, h2, hc, processResponse]
    | error e =>
        cases hm : getConsecutiveFailureMessage (st.consecutiveFailures + 1) <;>
          simp [sendMessage, h1, h2, hc, hm]

theorem retry_preserves_invariant (st : ChatState) (now : Int)
    (outcome : RemoteOutcome)
    (h : (st.state = .error ↔ st.error.isSome = true) ∧
         (st.state = .complete → st.prd.isSome = true)) :
    ((retry st now outcome).chat.state = .error ↔
      (retry st now outcome).chat.error.isSome = true) ∧
    ((retry st now outcome).chat.state = .complete →
      (retry st now outcome).chat.prd.isSome = true) := by
  by_cases hl : st.lastUserMessage = ""
  · unfold retry
    rw [if_pos hl]
    exact h
  · by_cases hj : ¬st.jsonRetryAttempted = true ∧ errorIsParse st.error = true
    · cases hc : callApiClassify outcome with
      | ok r =>
          cases r <;> simp [retry, hl, hj, hc, processResponse]
      | error e =>
          simp [retry, hl, hj, hc]
    · by_cases hig : trimsToEmpty st.lastUserMessage = true ∨ st.state = .loading
      · unfold retry
        rw [if_neg hl, if_neg hj, if_pos hig]
        simp
      · have hrw : retry st now outcome =
            sendMessage st st.lastUserMessage now outcome := by
          unfold retry
          rw [if_neg hl, if_neg hj, if_neg hig]
        rw [hrw]
        exact sendMessage_preserves_invariant st st.lastUserMessage now outcome h

/-- Claim C2 (amended): in every reachable state, a `FailureState` is
present exactly when the lifecycle state is `Failed`, and the generated
document is present whenever the lifecycle state is `Complete`.  (The
converse direction for the document — present only in `Complete` — is
refuted by the counterexample: the document survives a `send` issued from
`Complete`.) -/
theorem lifecycle_document_invariant_amended (st : ChatState)
    (h : Reachable st) :
    (st.state = .error ↔ st.error.isSome = true) ∧
    (st.state = .complete → st.prd.isSome = true) := by
  induction h with
  | refl => exact ⟨by decide, by decide⟩
  | tail hr hstep ih =>
      cases hstep with
      | send content now outcome =>
          exact sendMessage_preserves_invariant _ content now outcome ih
      | retryOp now outcome =>
          exact retry_preserves_invariant _ now outcome ih
      | startOverOp => constructor <;> simp [startOver, initialChatState]
      | editOp => constructor <;> simp [editAndRegenerate]

/-- Claim C2 (amended) witness: the invariant instantiated at a concrete
reachable state, the failed first send. -/
theorem lifecycle_document_invariant_amended_witness :
    ((sendMessage initialChatState "hi" 0 RemoteOutcome.network).chat.state =
        AppState.error ↔
      ((sendMessage initialChatState "hi" 0
          RemoteOutcome.network).chat.error).isSome = true) ∧
    ((sendMessage initialChatState "hi" 0 RemoteOutcome.network).chat.state =
        AppState.complete →
      ((sendMessage initialChatState "hi" 0
          RemoteOutcome.network).chat.prd).isSome = true) :=
  lifecycle_document_invariant_amended
    (sendMessage initialChatState "hi" 0 RemoteOutcome.network).chat
    (Relation.ReflTransGen.single
      (Step.send initialChatState "hi" 0 RemoteOutcome.network))

end PrdBuilder
